import Mathlib

/-!
# Verification of the chat-pdfcompress job pipeline

Shallow embedding of the two source files of the repository:
* `app/worker/worker.py` — download stage (`download_pdf_with_progress`),
  executor loop (`job_worker`).
* `app/client/client.py` — intake validation (`Helper.validate_pdf_url`),
  progress broadcaster (`broadcast_update`).

Python machine behaviour is modelled explicitly: `int()` truncation toward
zero is `pyInt`, Python's banker-rounding `round(x, 2)` is `round2`, float
arithmetic is embedded as exact rational arithmetic, and runtime exceptions
(ZeroDivisionError, failing I/O) are explicit `Option`/flag results.
-/

namespace PdfCompress

/-- Python `int(q)` on a non-negative or negative rational: truncation toward
zero. -/
def pyInt (q : ℚ) : ℤ :=
  if 0 ≤ q then ⌊q⌋ else -⌊-q⌋

/-- Python `round(x)` to an integer: round half to even (banker's rounding). -/
def pyRound (q : ℚ) : ℤ :=
  let f := ⌊q⌋
  let frac := q - f
  if frac < 1/2 then f
  else if 1/2 < frac then f + 1
  else if f % 2 = 0 then f else f + 1

/-- Python `round(x, 2)`: round to two decimal places, half to even. -/
def round2 (q : ℚ) : ℚ := (pyRound (q * 100) : ℚ) / 100

/-! ## Download stage — `download_pdf_with_progress` (worker.py lines 21–44)

The coroutine reads the advertised `Content-Length` into `total`, then
consumes the body in chunks.  For each chunk it writes the chunk, adds its
length to `downloaded`, computes `percent = int((downloaded / total) * 50)`
(a ZeroDivisionError when `total = 0`), and when `percent` reaches the next
entry of `checkpoints = [0,10,20,30,40,50]` (scanning from index 1) it fires
`progress_callback` with that entry and advances the index; when the index
reaches the end of the list the loop `break`s.

The embedding is a function from the advertised total and the list of chunk
sizes to `none` (the ZeroDivisionError) or `some (fired, consumed)`, the
list of callback values fired in order and the number of chunks consumed
from the stream. -/

/-- The fixed checkpoint list of `download_pdf_with_progress`. -/
def checkpoints : List ℕ := [0, 10, 20, 30, 40, 50]

/-- One run of the chunk loop of `download_pdf_with_progress`, from a given
running byte count `downloaded` and checkpoint index `idx`. -/
def downloadAux (total : ℕ) : List ℕ → ℕ → ℕ → Option (List ℕ × ℕ)
  | [], _, _ => some ([], 0)
  | c :: rest, downloaded, idx =>
      if total = 0 then none
      else
        let downloaded' := downloaded + c
        let percent := downloaded' * 50 / total
        let cp := checkpoints.getD idx 1000
        if cp ≤ percent then
          if idx + 1 = checkpoints.length then some ([cp], 1)
          else
            match downloadAux total rest downloaded' (idx + 1) with
            | none => none
            | some (fs, k) => some (cp :: fs, k + 1)
        else
          match downloadAux total rest downloaded' idx with
          | none => none
          | some (fs, k) => some (fs, k + 1)

/-- `download_pdf_with_progress`: the loop starts with `downloaded = 0` and
`next_checkpoint_idx = 1`. -/
def download_pdf_with_progress (total : ℕ) (chunks : List ℕ) :
    Option (List ℕ × ℕ) :=
  downloadAux total chunks 0 1

/-! ## Progress broadcaster — `broadcast_update` (client.py lines 268–275)

```python
for ws in connections:
    try:
        await ws.send_text(json.dumps({"updates": [msg]}))
    except Exception:
        connections.remove(ws)
```

CPython list iteration keeps an internal index: `next` yields `lst[i]` and
sets `i := i + 1`; `list.remove(x)` deletes the first element equal to `x`,
shifting later elements down.  The embedding runs that iterator over a list
of observer identifiers with a predicate `fails` telling which observers
raise on `send_text`, and returns the final connection list together with
the list of observers that were actually delivered the message. -/

/-- The `for ws in connections` loop of `broadcast_update`, carried out with
CPython's index-based list iterator semantics under in-place `remove`. -/
def broadcastAux (fails : ℕ → Bool) (lst : List ℕ) (i : ℕ) :
    List ℕ × List ℕ :=
  if h : i < lst.length then
    let ws := lst.get ⟨i, h⟩
    if fails ws then
      broadcastAux fails (lst.erase ws) (i + 1)
    else
      let r := broadcastAux fails lst (i + 1)
      (r.1, ws :: r.2)
  else
    (lst, [])
termination_by lst.length - i
decreasing_by
  · have hmem : lst.get ⟨i, h⟩ ∈ lst := List.get_mem lst i h
    have := List.length_erase_of_mem hmem
    omega
  · omega

/-- `broadcast_update`: iterate from index 0; result is the surviving
connection list and the observers delivered to, in order. -/
def broadcast_update (fails : ℕ → Bool) (connections : List ℕ) :
    List ℕ × List ℕ :=
  broadcastAux fails connections 0

/-! ## Job intake — `Helper.validate_pdf_url` (client.py lines 89–134)

The network is abstracted as the outcomes the function can observe: the HEAD
probe either raises (message) or yields a status code plus the optional
`Content-Type` / `Content-Length` headers, and the streaming GET either raises
or yields the first body chunk (`none` when the stream is empty).  The
Python `try`/`except` around steps 2–5 is the `Except` match: a raised
transport error becomes a `status := false` result carrying `str(e)`. -/

/-- Python `s.split(c)` for a one-character separator, on the character
list of the string. -/
def splitChar (c : Char) : List Char → List (List Char)
  | [] => [[]]
  | a :: rest =>
      match splitChar c rest with
      | [] => [[a]]
      | h :: t => if a = c then [] :: h :: t else (a :: h) :: t

/-- The part of a character list before the first occurrence of `sep`
(the whole list when `sep` does not occur): Python `s.split(sep)[0]`. -/
def beforeSeq (sep : List Char) : List Char → List Char
  | [] => []
  | a :: rest =>
      if sep.isPrefixOf (a :: rest) then [] else a :: beforeSeq sep rest

/-- Whether `sep` occurs as a contiguous subsequence of the list. -/
def containsSeq (sep : List Char) : List Char → Bool
  | [] => sep.isEmpty
  | a :: rest => sep.isPrefixOf (a :: rest) || containsSeq sep rest

/-- Python `url.startswith(pre)`. -/
def pyStartsWith (pre s : String) : Bool := pre.data.isPrefixOf s.data

/-- Python `s.lower()`. -/
def pyLower (s : String) : String := String.mk (s.data.map Char.toLower)

/-- Python `needle in hay` for strings: substring containment. -/
def pyIn (needle hay : String) : Bool := containsSeq needle.data hay.data

/-- Python `f"{q:.2f}"`: fixed two-decimal rendering (round half to even). -/
def format2f (q : ℚ) : String :=
  let cents := pyRound (q * 100)
  let whole := cents / 100
  let frac := (cents % 100).toNat
  toString whole ++ "." ++ (if frac < 10 then "0" else "") ++ toString frac

/-- Observable outcome of the `requests.head` probe. -/
structure HeadResponse where
  status_code : ℕ
  content_type : Option String
  content_length : Option ℕ
deriving Repr, DecidableEq

/-- The network behaviour `validate_pdf_url` can observe: each request either
raises a transport exception (its message) or returns. -/
structure NetEnv where
  head : Except String HeadResponse
  first_chunk : Except String (Option (List ℕ))
deriving Repr

/-- The dictionary returned by `validate_pdf_url`. -/
structure ValidationResult where
  status : Bool
  reason : String
  content_type : Option String := none
  size_megabytes : Option ℚ := none
deriving Repr, DecidableEq

/-- Step 5 of `validate_pdf_url`: attempt the streaming download and build the
success result (still inside the surrounding `try`). -/
def validateStep5 (env : NetEnv) (ctype : String) (clen : Option ℕ) :
    ValidationResult :=
  match env.first_chunk with
  | .error e => { status := false, reason := e }
  | .ok none => { status := false, reason := "Empty file / cannot stream" }
  | .ok (some _) =>
      { status := true, reason := "PDF is valid and downloadable",
        content_type := some ctype,
        size_megabytes := clen.map (fun n => (n : ℚ) / (1024 * 1024)) }

/-- `Helper.validate_pdf_url`. -/
def validate_pdf_url (env : NetEnv) (url : String) : ValidationResult :=
  if ¬ pyStartsWith "http://" url ∧ ¬ pyStartsWith "https://" url then
    { status := false, reason := "Invalid protocol" }
  else
    match env.head with
    | .error e => { status := false, reason := e }
    | .ok head =>
        if head.status_code < 200 ∨ 300 ≤ head.status_code then
          { status := false, reason := "HTTP error: " ++ toString head.status_code }
        else
          let ctype := head.content_type.getD ""
          if ¬ pyIn "pdf" (pyLower ctype) then
            { status := false, reason := "Not a PDF content type: " ++ ctype }
          else
            match head.content_length with
            | some clen =>
                let size_mb : ℚ := (clen : ℚ) / (1024 * 1024)
                if 500 < size_mb then
                  { status := false,
                    reason := "File too large: " ++ format2f size_mb ++ " MB" }
                else validateStep5 env ctype (some clen)
            | none => validateStep5 env ctype none

/-! ## Executor loop — `job_worker` (worker.py lines 46–186)

One iteration of the loop, processing a single dequeued job.  The
environment records what the filesystem/network does on this run: whether
the source file is already cached, the advertised total and body chunks of
the download, the document (per page, the `(width, height)` of each
embedded image), whether `doc.save` succeeds, and the two file sizes read
at the end.  The result collects the wire messages written (each a snapshot
of the mutable `update_data["data"]` dictionary at `write` time), the
temporary files still on disk when the iteration exits, and whether the
iteration ran to completion (`ok := false` when an exception propagates). -/

/-- `os.path.split(s)[-1]`: the part after the last `/`. -/
def basename (s : String) : String :=
  String.mk ((splitChar '/' s.data).getLastD [])

/-- `s.split(".pdf")[0]`: the part before the first occurrence of `.pdf`. -/
def stemPdf (s : String) : String := String.mk (beforeSeq ".pdf".data s.data)

/-- The heterogeneous `file_size` field: initialised to the number `0.0`,
overwritten with a string label on completion. -/
inductive FileSizeVal where
  | num (q : ℚ)
  | str (s : String)
deriving Repr, DecidableEq

/-- The mutable `update_data["data"]` dictionary. -/
structure UpdateData where
  filename : String
  status : String
  progress : ℚ
  output_filename : String
  compress : ℚ
  file_size : FileSizeVal
deriving Repr, DecidableEq

/-- `update_data["data"]` as first initialised (worker.py lines 64–74). -/
def initUpdateData : UpdateData :=
  { filename := "paper.pdf", status := "Idle", progress := 0,
    output_filename := "", compress := 0, file_size := .num 0 }

/-- The temporary path `./shared/img_{page_index}_{image_index}_gray.{fmt}`. -/
def tempPath (page_index image_index : ℕ) (fmt : String) : String :=
  "./shared/img_" ++ toString page_index ++ "_" ++ toString image_index ++
    "_gray." ++ fmt

/-- What happens to one embedded image (worker.py lines 115–144). -/
inductive ImgAction where
  | deleted
  | replaced (w h : ℤ) (mode : String) (temp : String)
deriving Repr, DecidableEq

/-- Processing of a single embedded image: `quality == 0` deletes it;
otherwise it is re-encoded at mode `L`/`RGB` and resized to
`(max(int(w*ratio),1), max(int(h*ratio),1))`, written to the temp path. -/
def processImage (quality : ℤ) (ratio : ℚ) (is_gray : Bool) (fmt : String)
    (page_index image_index : ℕ) (w h : ℕ) : ImgAction :=
  if quality = 0 then .deleted
  else
    .replaced (max (pyInt ((w : ℚ) * ratio)) 1) (max (pyInt ((h : ℚ) * ratio)) 1)
      (if is_gray then "L" else "RGB")
      (tempPath page_index image_index fmt)

/-- The inner image loop of one page; `image_index` counts from 1
(`enumerate(..., start=1)`). -/
def pageActions (quality : ℤ) (ratio : ℚ) (is_gray : Bool) (fmt : String)
    (page_index : ℕ) : List (ℕ × ℕ) → ℕ → List ImgAction
  | [], _ => []
  | (w, h) :: rest, image_index =>
      processImage quality ratio is_gray fmt page_index image_index w h ::
        pageActions quality ratio is_gray fmt page_index rest (image_index + 1)

/-- The temp files appended to `file_to_remove` by a list of image actions. -/
def tempsOf (acts : List ImgAction) : List String :=
  acts.filterMap fun a =>
    match a with
    | .deleted => none
    | .replaced _ _ _ t => some t

/-- The page loop of `job_worker` (worker.py lines 114–151): rewrites each
page's images, then writes one progress message
`50 + 50 * (page_index + 1) / n` where `n = len(doc)`.  Returns the page
messages in order and the temp files created. -/
def transformLoop (quality : ℤ) (ratio : ℚ) (is_gray : Bool) (fmt : String)
    (n : ℕ) (st : UpdateData) :
    List (List (ℕ × ℕ)) → ℕ → List UpdateData × List String
  | [], _ => ([], [])
  | imgs :: rest, page_index =>
      let temps := tempsOf (pageActions quality ratio is_gray fmt page_index imgs 1)
      let msg := { st with progress := 50 + 50 * ((page_index : ℚ) + 1) / (n : ℚ) }
      let r := transformLoop quality ratio is_gray fmt n st rest (page_index + 1)
      (msg :: r.1, temps ++ r.2)

/-- The `info` payload of a `job` message. -/
structure JobInfo where
  job_id : String
  url : String
  img_format : String
  quality : ℤ
  ratio : ℚ
  is_gray : Bool
deriving Repr, DecidableEq

/-- What the filesystem and network do during one executor iteration. -/
structure JobEnv where
  cached : Bool
  total : ℕ
  chunks : List ℕ
  pages : List (List (ℕ × ℕ))
  save_ok : Bool
  orig_size : ℕ
  out_size : ℕ
deriving Repr, DecidableEq

/-- Observable outcome of one executor iteration. -/
structure JobResult where
  messages : List UpdateData
  temps_remaining : List String
  ok : Bool
deriving Repr, DecidableEq

/-- One iteration of `job_worker` on a dequeued job.  Wire writes are the
`writer.write` calls; the `Converting.../50` state change at lines 103–107
only mutates the dictionary and calls `writer.drain()` — it performs no
`write`, so no message is appended there. -/
def job_worker_run (info : JobInfo) (env : JobEnv) : JobResult :=
  let filename_src := basename info.url
  let file_dst := stemPdf (basename filename_src)
  let filename_dst := file_dst ++ "_converted.pdf"
  let st1 := { initUpdateData with
               filename := filename_src, status := "Working...",
               progress := 0, output_filename := filename_dst }
  let dl : Option (List ℕ) :=
    if env.cached then some []
    else (download_pdf_with_progress env.total env.chunks).map Prod.fst
  match dl with
  | none =>
      { messages := [st1], temps_remaining := [], ok := false }
  | some fired =>
      let dlMsgs := fired.map fun p =>
        { st1 with progress := (p : ℚ), status := "Downloading..." }
      let stConv := { st1 with status := "Converting...", progress := 50 }
      let tr := transformLoop info.quality info.ratio info.is_gray
        info.img_format env.pages.length stConv env.pages 0
      if ¬ env.save_ok then
        { messages := st1 :: dlMsgs ++ tr.1, temps_remaining := tr.2, ok := false }
      else if env.orig_size = 0 then
        { messages := st1 :: dlMsgs ++ tr.1, temps_remaining := [], ok := false }
      else
        let out_mb : ℚ := (env.out_size : ℚ) / (1024 * 1024)
        let compress_ratio : ℚ :=
          (1 - (env.out_size : ℚ) / (env.orig_size : ℚ)) * 100
        let stFin := { stConv with
                       status := "done", progress := 100,
                       output_filename := filename_dst,
                       file_size := .str (format2f (round2 out_mb) ++ " MB"),
                       compress := round2 compress_ratio }
        { messages := st1 :: dlMsgs ++ tr.1 ++ [stFin],
          temps_remaining := [], ok := true }

/-! ## Lemmas about the download stage -/

theorem downloadAux_isSome (total : ℕ) (htotal : 0 < total) :
    ∀ (chunks : List ℕ) (d idx : ℕ), (downloadAux total chunks d idx).isSome := by
  intro chunks
  induction chunks with
  | nil => intro d idx; simp [downloadAux]
  | cons c rest ih =>
      intro d idx
      have h0 : ¬ total = 0 := by omega
      simp only [downloadAux, h0, if_false]
      split
      · split
        · simp
        · have h := ih (d + c) (idx + 1)
          cases hrec : downloadAux total rest (d + c) (idx + 1) with
          | none => rw [hrec] at h; simp at h
          | some v => simp [hrec]
      · have h := ih (d + c) idx
        cases hrec : downloadAux total rest (d + c) idx with
        | none => rw [hrec] at h; simp at h
        | some v => simp [hrec]

theorem checkpoints_drop_cons (idx : ℕ) (h5 : idx ≤ 5) :
    checkpoints.drop idx = checkpoints.getD idx 1000 :: checkpoints.drop (idx + 1) := by
  interval_cases idx <;> rfl

theorem downloadAux_prefix (total : ℕ) (htotal : 0 < total) :
    ∀ (chunks : List ℕ) (d idx : ℕ), idx ≤ 5 →
      ∀ fs k, downloadAux total chunks d idx = some (fs, k) →
        fs <+: checkpoints.drop idx ∧ k ≤ chunks.length ∧
          (50 ∉ fs → k = chunks.length) := by
  intro chunks
  induction chunks with
  | nil =>
      intro d idx _ fs k h
      simp only [downloadAux, Option.some.injEq, Prod.mk.injEq] at h
      obtain ⟨rfl, rfl⟩ := h
      exact ⟨ List.nil_prefix, by simp, fun _ => rfl⟩
  | cons c rest ih =>
      intro d idx h5 fs k h
      have h0 : ¬ total = 0 := by omega
      simp only [downloadAux, h0, if_false] at h
      split at h
      · -- checkpoint fired
        split at h
        · -- break: next_checkpoint_idx reached the end of the list
          rename_i hcp hlen
          have hidx : idx = 5 := by
            simp only [checkpoints, List.length_cons, List.length_nil] at hlen
            omega
          subst hidx
          simp only [Option.some.injEq, Prod.mk.injEq] at h
          obtain ⟨rfl, rfl⟩ := h
          refine ⟨?_, by simp, fun hno => ?_⟩
          · show [checkpoints.getD 5 1000] <+: checkpoints.drop 5
            exact List.prefix_refl _
          · exact absurd (by simp [checkpoints]) hno
        · -- checkpoint fired, loop continues
          rename_i hcp hlen
          have hlt : idx + 1 ≤ 5 := by
            simp only [checkpoints, List.length_cons, List.length_nil] at hlen
            omega
          cases hrec : downloadAux total rest (d + c) (idx + 1) with
          | none => rw [hrec] at h; simp at h
          | some v =>
              obtain ⟨fs', k'⟩ := v
              rw [hrec] at h
              simp only [Option.some.injEq, Prod.mk.injEq] at h
              obtain ⟨rfl, rfl⟩ := h
              obtain ⟨hpre, hk, hall⟩ := ih (d + c) (idx + 1) hlt fs' k' hrec
              refine ⟨?_, by simpa using Nat.add_le_add_right hk 1, fun hno => ?_⟩
              · rw [checkpoints_drop_cons idx h5]
                obtain ⟨t, ht⟩ := hpre
                exact ⟨t, by rw [List.cons_append, ht]⟩
              · have : (50 : ℕ) ∉ fs' := fun hmem => hno (List.mem_cons_of_mem _ hmem)
                simp [hall this]
      · -- checkpoint not yet reached
        cases hrec : downloadAux total rest (d + c) idx with
        | none => rw [hrec] at h; simp at h
        | some v =>
            obtain ⟨fs', k'⟩ := v
            rw [hrec] at h
            simp only [Option.some.injEq, Prod.mk.injEq] at h
            obtain ⟨rfl, rfl⟩ := h
            obtain ⟨hpre, hk, hall⟩ := ih (d + c) idx h5 fs' k' hrec
            exact ⟨hpre, by simpa using Nat.add_le_add_right hk 1,
              fun hno => by simp [hall hno]⟩

/-! ## Claim theorems: download stage -/

/-- Claim C10: with a missing or zero advertised `Content-Length` the download
loop divides by zero on the first body chunk (`int((downloaded / total) * 50)`
raises ZeroDivisionError), while for every positive advertised total the loop
completes on every chunk sequence. -/
theorem C10_download_zero_total (total c : ℕ) (rest chunks : List ℕ)
    (htotal : 0 < total) :
    download_pdf_with_progress 0 (c :: rest) = none ∧
      (download_pdf_with_progress total chunks).isSome := by
  constructor
  · simp [download_pdf_with_progress, downloadAux]
  · exact downloadAux_isSome total htotal chunks 0 1

/-- Witness for C10 at a concrete input. -/
theorem C10_download_zero_total_witness :
    download_pdf_with_progress 0 [5] = none ∧
      (download_pdf_with_progress 3 [1, 2]).isSome :=
  C10_download_zero_total 3 5 [] [1, 2] (by decide)

/-- Claim C5, counterexample: the claim asserts that after checkpoint 50 has
fired the remaining body chunks continue to be read until the stream is
exhausted, but the loop `break`s immediately after firing 50: with
`total = 1` and six 1-byte chunks, checkpoint 50 fires on the fifth chunk
and only 5 of the 6 chunks are consumed. -/
theorem C5_download_break_counterexample :
    download_pdf_with_progress 1 [1, 1, 1, 1, 1, 1] =
        some ([10, 20, 30, 40, 50], 5) ∧
      ([1, 1, 1, 1, 1, 1] : List ℕ).length = 6 := by decide

/-- Claim C5 (amended): for every positive advertised total, the fired
callback values form a prefix of `[10, 20, 30, 40, 50]` — hence strictly
increasing, each checkpoint at most once, never exceeding 50 — but once
checkpoint 50 has fired the chunk loop breaks immediately: the remaining
body chunks are only guaranteed to be consumed when 50 never fired. -/
theorem C5_download_checkpoints (total : ℕ) (chunks fs : List ℕ) (k : ℕ)
    (htotal : 0 < total)
    (h : download_pdf_with_progress total chunks = some (fs, k)) :
    fs <+: [10, 20, 30, 40, 50] ∧ fs.Pairwise (· < ·) ∧
      (∀ x ∈ fs, x ≤ 50) ∧ k ≤ chunks.length ∧
      (50 ∉ fs → k = chunks.length) := by
  obtain ⟨hpre, hk, hall⟩ :=
    downloadAux_prefix total htotal chunks 0 1 (by omega) fs k h
  have hpre' : fs <+: [10, 20, 30, 40, 50] := by
    simpa [checkpoints] using hpre
  refine ⟨hpre', ?_, ?_, hk, hall⟩
  · exact List.Pairwise.sublist hpre'.sublist (by decide)
  · intro x hx
    have hx' : x ∈ ([10, 20, 30, 40, 50] : List ℕ) := hpre'.sublist.subset hx
    simp at hx'
    omega

/-- Witness for C5 at a concrete input. -/
theorem C5_download_checkpoints_witness :
    ([10, 20, 30, 40, 50] : List ℕ) <+: [10, 20, 30, 40, 50] ∧
      ([10, 20, 30, 40, 50] : List ℕ).Pairwise (· < ·) ∧
      (∀ x ∈ ([10, 20, 30, 40, 50] : List ℕ), x ≤ 50) ∧
      5 ≤ ([1, 1, 1, 1, 1, 1] : List ℕ).length ∧
      (50 ∉ ([10, 20, 30, 40, 50] : List ℕ) →
        5 = ([1, 1, 1, 1, 1, 1] : List ℕ).length) :=
  C5_download_checkpoints 1 [1, 1, 1, 1, 1, 1] [10, 20, 30, 40, 50] 5
    (by decide) (by decide)

/-! ## Claim theorems: progress broadcaster -/

/-- Claim C2: the spec and the docstring of `broadcast_update` promise
delivery to every observer, a failing observer never preventing delivery to
the others.  The code removes the failing observer from the list it is
iterating, which makes CPython's index-based iterator skip the next
observer: with connections `[0, 1]` where observer 0 raises, observer 1 is
a distinct, non-failing observer that stays subscribed yet receives
nothing — the delivered list is empty. -/
theorem C2_broadcast_skips_next_observer :
    broadcast_update (· == 0) [0, 1] = ([1], []) ∧
      (· == 0 : ℕ → Bool) 1 = false := by
  constructor
  · simp [broadcast_update, broadcastAux, List.erase]
  · decide

/-! ## Claim theorems: executor loop -/

/-- Claim C1: the spec says entry to Converting emits a snapshot at
progress 50 before any per-page snapshot, but worker.py lines 103–107 only
mutate `update_data` and call `writer.drain()` — there is no
`writer.write`, so the Converting/50 snapshot is never put on the wire.  On
a cached two-page document the full wire trace is
`Working.../0, Converting.../75, Converting.../100, done/100`: no message
carries status `Converting...` with progress 50. -/
theorem C1_converting_snapshot_never_written :
    ((job_worker_run ⟨"job-1", "https://x/a.pdf", "jpeg", 100, 1, false⟩
        ⟨true, 0, [], [[(4, 5)], [(3, 3)]], true, 100, 50⟩).messages.map
      fun m => m.status) =
      ["Working...", "Converting...", "Converting...", "done"] ∧
    ((job_worker_run ⟨"job-1", "https://x/a.pdf", "jpeg", 100, 1, false⟩
        ⟨true, 0, [], [[(4, 5)], [(3, 3)]], true, 100, 50⟩).messages.map
      fun m => m.progress) = [0, 75, 100, 100] ∧
    ∀ m ∈ (job_worker_run ⟨"job-1", "https://x/a.pdf", "jpeg", 100, 1, false⟩
        ⟨true, 0, [], [[(4, 5)], [(3, 3)]], true, 100, 50⟩).messages,
      ¬ (m.status = "Converting..." ∧ m.progress = 50) := by
  have hp : ((job_worker_run ⟨"job-1", "https://x/a.pdf", "jpeg", 100, 1, false⟩
        ⟨true, 0, [], [[(4, 5)], [(3, 3)]], true, 100, 50⟩).messages.map
      fun m => m.progress) = [0, 75, 100, 100] := by
    simp [job_worker_run, transformLoop, pageActions, processImage, tempsOf,
      initUpdateData, round2, pyRound]
    norm_num
  refine ⟨by decide, hp, ?_⟩
  intro m hm hc
  have hmem : m.progress ∈ ([0, 75, 100, 100] : List ℚ) := by
    rw [← hp]
    exact List.mem_map_of_mem _ hm
  rw [hc.2] at hmem
  norm_num at hmem

/-- Claim C4, counterexample: the first snapshot written for a job carries
status `"Working..."`, not a Downloading status (the wire statuses are
`Working...`/`Downloading...`/`Converting...`/`done`, and `Downloading...`
first appears only in download checkpoint callbacks). -/
theorem C4_first_snapshot_counterexample :
    (((job_worker_run ⟨"job-1", "https://x/a.pdf", "jpeg", 100, 1, false⟩
        ⟨true, 0, [], [[(4, 5)]], true, 100, 50⟩).messages.head?).map
      fun m => m.status) = some "Working..." ∧
      ("Working..." : String) ≠ "Downloading" ∧
      ("Working..." : String) ≠ "Downloading..." := by decide

/-- Claim C4 (amended): for every job and every environment, the first
snapshot written carries progress 0, status `"Working..."`, and the
resolved filenames — the source name is the part of the URL after the last
`/`, the output name is its stem before `.pdf` suffixed with
`_converted.pdf`. -/
theorem C4_first_snapshot (info : JobInfo) (env : JobEnv) :
    (job_worker_run info env).messages.head? =
      some { filename := basename info.url, status := "Working...",
             progress := 0,
             output_filename :=
               stemPdf (basename (basename info.url)) ++ "_converted.pdf",
             compress := 0, file_size := .num 0 } := by
  unfold job_worker_run
  cases hc : env.cached <;>
    simp only [hc, if_true, if_false, Bool.false_eq_true, initUpdateData] <;>
    split <;> (try split) <;> (try split) <;> simp

/-- When the source file is cached or the advertised total is positive,
the download branch of `job_worker_run` yields a callback list rather than
raising. -/
theorem download_branch_some (env : JobEnv)
    (hdl : env.cached = true ∨ 0 < env.total) :
    ∃ fired, (if env.cached then some ([] : List ℕ)
      else (download_pdf_with_progress env.total env.chunks).map Prod.fst) =
        some fired := by
  cases hcc : env.cached with
  | true => exact ⟨[], by simp [hcc]⟩
  | false =>
      simp only [hcc, Bool.false_eq_true, false_or] at hdl
      have hs := downloadAux_isSome env.total hdl env.chunks 0 1
      cases hres : download_pdf_with_progress env.total env.chunks with
      | none =>
          rw [download_pdf_with_progress] at hres
          rw [hres] at hs
          simp at hs
      | some v => exact ⟨v.1, by simp [hcc, hres]⟩

/-- Claim C3, counterexample: the claim says every temporary re-encoded
image file is removed once its page completes, on every exit path
including a failing final document save.  The code only removes temp files
after `doc.save` has returned: when the save raises, the iteration exits
with the page-0 temp file still on disk. -/
theorem C3_temp_cleanup_counterexample :
    (job_worker_run ⟨"job-1", "https://x/a.pdf", "jpeg", 100, 1, false⟩
        ⟨true, 0, [], [[(4, 5)]], false, 100, 50⟩).temps_remaining =
      ["./shared/img_0_1_gray.jpeg"] ∧
    (job_worker_run ⟨"job-1", "https://x/a.pdf", "jpeg", 100, 1, false⟩
        ⟨true, 0, [], [[(4, 5)]], false, 100, 50⟩).ok = false := by decide

/-- Claim C3 (amended): temporary re-encoded image files are removed only
in a single pass after the final `doc.save` has succeeded — when the save
succeeds nothing is left behind, but when the save raises, every temp file
created during the whole transform is leaked and the iteration aborts. -/
theorem C3_temp_cleanup (info : JobInfo) (env : JobEnv) :
    (env.save_ok = true → (job_worker_run info env).temps_remaining = []) ∧
    (env.save_ok = false → (env.cached = true ∨ 0 < env.total) →
      (job_worker_run info env).temps_remaining =
        (transformLoop info.quality info.ratio info.is_gray info.img_format
          env.pages.length
          { filename := basename info.url, status := "Converting...",
            progress := 50,
            output_filename :=
              stemPdf (basename (basename info.url)) ++ "_converted.pdf",
            compress := 0, file_size := .num 0 }
          env.pages 0).2 ∧
      (job_worker_run info env).ok = false) := by
  constructor
  · intro hsave
    unfold job_worker_run
    cases hc : env.cached <;>
      simp only [hc, if_true, if_false, Bool.false_eq_true, hsave] <;>
      split <;> (try split) <;> (try split) <;> simp_all
  · intro hsave hdl
    obtain ⟨fired, hfired⟩ := download_branch_some env hdl
    unfold job_worker_run
    rw [hfired]
    simp [hsave, initUpdateData]

/-- Witness for C3 at concrete inputs: a successful save leaves no temp
files; a failing save leaves exactly the transform's temp files and aborts
the iteration. -/
theorem C3_temp_cleanup_witness :
    (job_worker_run ⟨"job-1", "https://x/a.pdf", "jpeg", 100, 1, false⟩
        ⟨true, 0, [], [[(4, 5)]], true, 100, 50⟩).temps_remaining = [] ∧
    ((job_worker_run ⟨"job-1", "https://x/a.pdf", "jpeg", 100, 1, false⟩
        ⟨true, 0, [], [[(4, 5)]], false, 100, 50⟩).temps_remaining =
      (transformLoop 100 1 false "jpeg"
        ([[(4, 5)]] : List (List (ℕ × ℕ))).length
        { filename := basename "https://x/a.pdf", status := "Converting...",
          progress := 50,
          output_filename :=
            stemPdf (basename (basename "https://x/a.pdf")) ++ "_converted.pdf",
          compress := 0, file_size := .num 0 }
        [[(4, 5)]] 0).2 ∧
      (job_worker_run ⟨"job-1", "https://x/a.pdf", "jpeg", 100, 1, false⟩
        ⟨true, 0, [], [[(4, 5)]], false, 100, 50⟩).ok = false) :=
  ⟨(C3_temp_cleanup ⟨"job-1", "https://x/a.pdf", "jpeg", 100, 1, false⟩
      ⟨true, 0, [], [[(4, 5)]], true, 100, 50⟩).1 rfl,
   (C3_temp_cleanup ⟨"job-1", "https://x/a.pdf", "jpeg", 100, 1, false⟩
      ⟨true, 0, [], [[(4, 5)]], false, 100, 50⟩).2 rfl (Or.inl rfl)⟩

/-! ## Claim theorems: transform stage progress -/

/-- The page messages of `transformLoop`, projected to their progress
values, starting from page index `i`. -/
theorem transformLoop_map_progress (q : ℤ) (r : ℚ) (g : Bool) (f : String)
    (n : ℕ) (st : UpdateData) :
    ∀ (ps : List (List (ℕ × ℕ))) (i : ℕ),
      ((transformLoop q r g f n st ps i).1).map (fun m => m.progress) =
        (List.range ps.length).map
          (fun k => 50 + 50 * (((i + k : ℕ) : ℚ) + 1) / (n : ℚ)) := by
  intro ps
  induction ps with
  | nil => intro i; simp [transformLoop]
  | cons imgs rest ih =>
      intro i
      simp only [transformLoop, List.map_cons, List.length_cons]
      rw [List.range_succ_eq_map, List.map_cons, List.map_map]
      congr 1
      rw [ih (i + 1)]
      refine List.map_congr_left fun k _ => ?_
      simp only [Function.comp_apply, Nat.succ_eq_add_one]
      push_cast
      ring

/-- Claim C6: on a document with `n ≥ 1` pages the transform stage emits
exactly one snapshot per page; the snapshot after page `k` (counting from
1) carries progress `50 + 50*k/n`; the progress sequence is monotonically
non-decreasing; and the last page's snapshot carries exactly 100. -/
theorem C6_transform_progress (q : ℤ) (r : ℚ) (g : Bool) (f : String)
    (pages : List (List (ℕ × ℕ))) (st : UpdateData)
    (hn : 1 ≤ pages.length) :
    ((transformLoop q r g f pages.length st pages 0).1).length =
        pages.length ∧
    (∀ k, k < pages.length →
      (((transformLoop q r g f pages.length st pages 0).1).map
          (fun m => m.progress)).get? k =
        some (50 + 50 * ((k : ℚ) + 1) / (pages.length : ℚ))) ∧
    (((transformLoop q r g f pages.length st pages 0).1).map
        (fun m => m.progress)).Pairwise (· ≤ ·) ∧
    (((transformLoop q r g f pages.length st pages 0).1).map
        (fun m => m.progress)).getLast? = some 100 := by
  have hmap := transformLoop_map_progress q r g f pages.length st pages 0
  have hn0 : (0 : ℚ) < (pages.length : ℚ) := by exact_mod_cast hn
  refine ⟨?_, ?_, ?_, ?_⟩
  · have := congrArg List.length hmap
    simpa using this
  · intro k hk
    rw [hmap, List.get?_map, List.get?_range hk]
    simp
  · rw [hmap]
    rw [List.pairwise_map]
    refine (List.pairwise_lt_range _).imp ?_
    intro a b hab
    have hab' : ((a : ℚ)) ≤ (b : ℚ) := by exact_mod_cast hab.le
    have h1 : ((0 + a : ℕ) : ℚ) + 1 ≤ ((0 + b : ℕ) : ℚ) + 1 := by
      push_cast; linarith
    gcongr
  · rw [hmap]
    obtain ⟨m, hm⟩ : ∃ m, pages.length = m + 1 := ⟨pages.length - 1, by omega⟩
    rw [hm, List.range_succ, List.map_append, List.map_singleton,
      List.getLast?_concat]
    have hm0 : ((m : ℚ) + 1) ≠ 0 := by positivity
    congr 1
    push_cast
    field_simp
    ring

/-- Witness for C6 on a concrete two-page document. -/
theorem C6_transform_progress_witness :
    ((transformLoop 100 1 false "jpeg"
        ([[(4, 5)], [(3, 3)]] : List (List (ℕ × ℕ))).length initUpdateData
        [[(4, 5)], [(3, 3)]] 0).1).length =
      ([[(4, 5)], [(3, 3)]] : List (List (ℕ × ℕ))).length ∧
    (((transformLoop 100 1 false "jpeg"
        ([[(4, 5)], [(3, 3)]] : List (List (ℕ × ℕ))).length initUpdateData
        [[(4, 5)], [(3, 3)]] 0).1).map (fun m => m.progress)).get? 0 =
      some (50 + 50 * ((0 : ℚ) + 1) /
        (([[(4, 5)], [(3, 3)]] : List (List (ℕ × ℕ))).length : ℚ)) ∧
    (((transformLoop 100 1 false "jpeg"
        ([[(4, 5)], [(3, 3)]] : List (List (ℕ × ℕ))).length initUpdateData
        [[(4, 5)], [(3, 3)]] 0).1).map (fun m => m.progress)).Pairwise (· ≤ ·) ∧
    (((transformLoop 100 1 false "jpeg"
        ([[(4, 5)], [(3, 3)]] : List (List (ℕ × ℕ))).length initUpdateData
        [[(4, 5)], [(3, 3)]] 0).1).map (fun m => m.progress)).getLast? =
      some 100 :=
  ⟨(C6_transform_progress 100 1 false "jpeg" [[(4, 5)], [(3, 3)]]
      initUpdateData (by decide)).1,
   (C6_transform_progress 100 1 false "jpeg" [[(4, 5)], [(3, 3)]]
      initUpdateData (by decide)).2.1 0 (by decide),
   (C6_transform_progress 100 1 false "jpeg" [[(4, 5)], [(3, 3)]]
      initUpdateData (by decide)).2.2.1,
   (C6_transform_progress 100 1 false "jpeg" [[(4, 5)], [(3, 3)]]
      initUpdateData (by decide)).2.2.2⟩

/-! ## Claim theorems: final metrics -/

theorem pyRound_nonpos (q : ℚ) (h : q ≤ 0) : pyRound q ≤ 0 := by
  have hf : ⌊q⌋ ≤ 0 := Int.floor_nonpos h
  by_cases hf0 : ⌊q⌋ = 0
  · have hlt : q - (⌊q⌋ : ℚ) < 1 / 2 := by
      rw [hf0]
      push_cast
      linarith
    simp only [pyRound]
    rw [if_pos hlt, hf0]
  · have hf1 : ⌊q⌋ ≤ -1 := by omega
    simp only [pyRound]
    split
    · exact hf
    · split
      · omega
      · split <;> omega

theorem round2_nonpos (q : ℚ) (h : q ≤ 0) : round2 q ≤ 0 := by
  have h1 : pyRound (q * 100) ≤ 0 := pyRound_nonpos _ (by nlinarith)
  have h2 : ((pyRound (q * 100) : ℤ) : ℚ) ≤ 0 := by exact_mod_cast h1
  unfold round2
  linarith

/-- Claim C7, counterexample: the claim asserts that whenever the output is
larger than the input the reported compression percent is negative; with
input 100000 bytes and output 100001 bytes the exact value is −0.001, and
Python's `round(−0.001, 2)` is (negative) zero — the reported
`compressionPercent` is 0, which is not a negative number. -/
theorem C7_rounding_counterexample :
    ((job_worker_run ⟨"job-1", "https://x/a.pdf", "jpeg", 100, 1, false⟩
        ⟨true, 0, [], [], true, 100000, 100001⟩).messages.getLast?).map
      (fun m => m.compress) = some 0 ∧
    (100000 : ℕ) < 100001 ∧ ¬ ((0 : ℚ) < 0) := by
  refine ⟨?_, by decide, by norm_num⟩
  simp [job_worker_run, transformLoop, initUpdateData]
  norm_num [round2, pyRound]

/-- Claim C7 (amended): for every completed job with positive input size,
the final snapshot reports `compressionPercent = round2((1 - out/in)*100)`
and `fileSizeLabel` is the output size in megabytes rounded to two decimals
with a `" MB"` suffix, the status is `done` and the iteration completes;
when the output is larger than the input the unrounded compression percent
is negative and the reported (rounded) value is nonpositive — rounding can
turn a tiny negative value into zero, so the reported value need not be
strictly negative. -/
theorem C7_final_metrics (info : JobInfo) (env : JobEnv)
    (hdl : env.cached = true ∨ 0 < env.total)
    (hsave : env.save_ok = true) (horig : 0 < env.orig_size) :
    ((job_worker_run info env).messages.getLast?).map
        (fun m => (m.status, m.compress, m.file_size)) =
      some ("done",
        round2 ((1 - (env.out_size : ℚ) / (env.orig_size : ℚ)) * 100),
        .str (format2f (round2 ((env.out_size : ℚ) / (1024 * 1024))) ++ " MB")) ∧
    (job_worker_run info env).ok = true ∧
    (env.orig_size < env.out_size →
      (1 - (env.out_size : ℚ) / (env.orig_size : ℚ)) * 100 < 0 ∧
      round2 ((1 - (env.out_size : ℚ) / (env.orig_size : ℚ)) * 100) ≤ 0) := by
  obtain ⟨fired, hfired⟩ := download_branch_some env hdl
  have horig' : ¬ env.orig_size = 0 := by omega
  have hneg : env.orig_size < env.out_size →
      (1 - (env.out_size : ℚ) / (env.orig_size : ℚ)) * 100 < 0 := by
    intro hlt
    have h0 : (0 : ℚ) < (env.orig_size : ℚ) := by exact_mod_cast horig
    have h1 : (1 : ℚ) < (env.out_size : ℚ) / (env.orig_size : ℚ) :=
      (one_lt_div h0).mpr (by exact_mod_cast hlt)
    nlinarith
  refine ⟨?_, ?_, fun hlt => ⟨hneg hlt, round2_nonpos _ (hneg hlt).le⟩⟩
  · unfold job_worker_run
    rw [hfired]
    simp only [hsave, horig', not_true, ite_false, if_neg, if_false]
    rw [List.getLast?_concat]
    simp
  · unfold job_worker_run
    rw [hfired]
    simp [hsave, horig']

/-- Witness for C7 at a concrete input with output larger than input. -/
theorem C7_final_metrics_witness :
    ((job_worker_run ⟨"job-1", "https://x/a.pdf", "jpeg", 100, 1, false⟩
        ⟨true, 0, [], [], true, 100, 101⟩).messages.getLast?).map
        (fun m => (m.status, m.compress, m.file_size)) =
      some ("done",
        round2 ((1 - (101 : ℚ) / (100 : ℚ)) * 100),
        .str (format2f (round2 ((101 : ℚ) / (1024 * 1024))) ++ " MB")) ∧
    (job_worker_run ⟨"job-1", "https://x/a.pdf", "jpeg", 100, 1, false⟩
        ⟨true, 0, [], [], true, 100, 101⟩).ok = true ∧
    ((100 : ℕ) < 101 →
      (1 - (101 : ℚ) / (100 : ℚ)) * 100 < 0 ∧
      round2 ((1 - (101 : ℚ) / (100 : ℚ)) * 100) ≤ 0) := by
  have h := C7_final_metrics ⟨"job-1", "https://x/a.pdf", "jpeg", 100, 1, false⟩
    ⟨true, 0, [], [], true, 100, 101⟩ (Or.inl rfl) rfl (by decide)
  exact ⟨by exact_mod_cast h.1, h.2.1, fun _ => by
    have := h.2.2 (by decide)
    exact_mod_cast this⟩

/-! ## Claim theorems: intake validation -/

/-- Claim C8, counterexample: for a non-HTTP(S) URL the code returns the
reason string `"Invalid protocol"` (capital I), not `"invalid protocol"` as
the claim quotes it. -/
theorem C8_invalid_protocol_counterexample :
    validate_pdf_url ⟨.ok ⟨200, some "application/pdf", none⟩, .ok (some [1])⟩
        "ftp://x/a.pdf" = { status := false, reason := "Invalid protocol" } ∧
      ("Invalid protocol" : String) ≠ "invalid protocol" := by decide

/-- Claim C8 (amended): `validate_pdf_url` never propagates an exception —
it is a total function of the observed network outcomes.  A URL whose
scheme is not `http://`/`https://` yields `status=false` with reason
`"Invalid protocol"` (capitalised, unlike the claim's quotation) for every
network behaviour, i.e. without consulting the network; a probe answering
404 yields reason `"HTTP error: 404"`; a transport exception raised by the
HEAD probe, or by the first body read after all header checks pass, is
caught and returned as `status=false` with the exception message as
reason. -/
theorem C8_validate_errors (env : NetEnv) (url : String) :
    (pyStartsWith "http://" url = false → pyStartsWith "https://" url = false →
      validate_pdf_url env url =
        { status := false, reason := "Invalid protocol" }) ∧
    (∀ e, env.head = .error e →
      (pyStartsWith "http://" url = true ∨ pyStartsWith "https://" url = true) →
      validate_pdf_url env url = { status := false, reason := e }) ∧
    (∀ hd, env.head = .ok hd → hd.status_code = 404 →
      (pyStartsWith "http://" url = true ∨ pyStartsWith "https://" url = true) →
      validate_pdf_url env url =
        { status := false, reason := "HTTP error: 404" }) ∧
    (∀ hd e, env.head = .ok hd →
      (pyStartsWith "http://" url = true ∨ pyStartsWith "https://" url = true) →
      200 ≤ hd.status_code → hd.status_code < 300 →
      pyIn "pdf" (pyLower (hd.content_type.getD "")) = true →
      (∀ n, hd.content_length = some n → (n : ℚ) / (1024 * 1024) ≤ 500) →
      env.first_chunk = .error e →
      validate_pdf_url env url = { status := false, reason := e }) := by
  refine ⟨?_, ?_, ?_, ?_⟩
  · intro h1 h2
    unfold validate_pdf_url
    rw [if_pos ⟨by simp [h1], by simp [h2]⟩]
  · intro e hhead hsch
    unfold validate_pdf_url
    rw [if_neg (by rcases hsch with h | h <;> simp [h])]
    simp [hhead]
  · intro hd hhead hst hsch
    unfold validate_pdf_url
    rw [if_neg (by rcases hsch with h | h <;> simp [h])]
    simp only [hhead]
    rw [if_pos (by omega)]
    rw [hst]
    decide
  · intro hd e hhead hsch h200 h300 hpdf hsize hchunk
    unfold validate_pdf_url
    rw [if_neg (by rcases hsch with h | h <;> simp [h])]
    simp only [hhead]
    rw [if_neg (by omega)]
    rw [if_neg (by simp [hpdf])]
    cases hcl : hd.content_length with
    | none => simp [validateStep5, hchunk]
    | some n =>
        have hns : ¬ (500 : ℚ) < (n : ℚ) / (1024 * 1024) :=
          not_lt.mpr (hsize n hcl)
        simp [hns, validateStep5, hchunk]

/-- Witness for C8 at concrete inputs: a bad scheme, a raising HEAD probe,
a 404 probe, and a raising first body read. -/
theorem C8_validate_errors_witness :
    validate_pdf_url ⟨.ok ⟨200, some "application/pdf", none⟩, .ok (some [1])⟩
        "ftp://x/a.pdf" = { status := false, reason := "Invalid protocol" } ∧
    validate_pdf_url ⟨.error "connection timed out", .ok (some [1])⟩
        "https://x/a.pdf" =
      { status := false, reason := "connection timed out" } ∧
    validate_pdf_url ⟨.ok ⟨404, some "application/pdf", none⟩, .ok (some [1])⟩
        "https://x/a.pdf" = { status := false, reason := "HTTP error: 404" } ∧
    validate_pdf_url ⟨.ok ⟨200, some "application/pdf", none⟩,
        .error "stream reset"⟩ "https://x/a.pdf" =
      { status := false, reason := "stream reset" } :=
  ⟨(C8_validate_errors ⟨.ok ⟨200, some "application/pdf", none⟩,
      .ok (some [1])⟩ "ftp://x/a.pdf").1 (by decide) (by decide),
   (C8_validate_errors ⟨.error "connection timed out", .ok (some [1])⟩
      "https://x/a.pdf").2.1 "connection timed out" rfl (Or.inr (by decide)),
   (C8_validate_errors ⟨.ok ⟨404, some "application/pdf", none⟩,
      .ok (some [1])⟩ "https://x/a.pdf").2.2.1 ⟨404, some "application/pdf", none⟩
      rfl rfl (Or.inr (by decide)),
   (C8_validate_errors ⟨.ok ⟨200, some "application/pdf", none⟩,
      .error "stream reset"⟩ "https://x/a.pdf").2.2.2
      ⟨200, some "application/pdf", none⟩ "stream reset" rfl
      (Or.inr (by decide)) (by decide) (by decide) (by decide)
      (fun n hn => by cases hn) rfl⟩

/-! ## Claim theorems: per-image transform policy -/

theorem pyInt_eq_floor (q : ℚ) (h : 0 ≤ q) : pyInt q = ⌊q⌋ := if_pos h

/-- Claim C9: an image is removed (never re-encoded) exactly when the job's
quality is 0, regardless of ratio, grayscale and format; otherwise, for a
ratio in `(0, 1]` and source dimensions `w × h`, the replacement image has
dimensions `max(floor(w*r),1) × max(floor(h*r),1)`. -/
theorem C9_image_policy (quality : ℤ) (ratio : ℚ) (is_gray : Bool)
    (fmt : String) (p i w h : ℕ) :
    (quality = 0 →
      processImage quality ratio is_gray fmt p i w h = .deleted) ∧
    (quality ≠ 0 → 0 < ratio → ratio ≤ 1 →
      processImage quality ratio is_gray fmt p i w h =
        .replaced (max ⌊(w : ℚ) * ratio⌋ 1) (max ⌊(h : ℚ) * ratio⌋ 1)
          (if is_gray then "L" else "RGB") (tempPath p i fmt)) := by
  constructor
  · intro hq
    simp [processImage, hq]
  · intro hq hr0 _
    have hw : (0 : ℚ) ≤ (w : ℚ) * ratio := mul_nonneg (by positivity) hr0.le
    have hh : (0 : ℚ) ≤ (h : ℚ) * ratio := mul_nonneg (by positivity) hr0.le
    simp [processImage, hq, pyInt, hw, hh]

/-- Witness for C9: quality 0 deletes; quality 80 at ratio 1/2 resizes. -/
theorem C9_image_policy_witness :
    processImage 0 (1/2) false "jpeg" 0 1 4 5 = .deleted ∧
    processImage 80 (1/2) true "png" 1 2 5 3 =
      .replaced (max ⌊((5 : ℕ) : ℚ) * (1/2)⌋ 1) (max ⌊((3 : ℕ) : ℚ) * (1/2)⌋ 1)
        (if true then "L" else "RGB") (tempPath 1 2 "png") :=
  ⟨(C9_image_policy 0 (1/2) false "jpeg" 0 1 4 5).1 rfl,
   (C9_image_policy 80 (1/2) true "png" 1 2 5 3).2 (by decide) (by norm_num)
     (by norm_num)⟩

end PdfCompress
